import Mathlib

/-!
Shallow embedding of the capyai-token contracts.

The repository holds three parallel encodings of the same fixed-supply token:
`src/contracts/CapyKaspaToken.rs`, `src/contracts/CapyCosmosToken.rs` and
`src/contracts/CapySolanaToken.rs`.  Each namespace below embeds one file.
Addresses, token accounts and byte-array recipients are modelled as `Nat`
identifiers; `u64`/`u128` amounts and timestamps are modelled as `Nat`
(the spec, section 7, states the arithmetic never wraps).  Fallible Rust
functions returning `Result` are embedded as `Except`.
-/

namespace CapyKaspa

/-- Token-distribution constants of CapyKaspaToken.rs, lines 7-23. -/
def INITIAL_SUPPLY : Nat := 1000000000

def LIQUIDITY_ALLOCATION : Nat := 400000000

def STAKING_ALLOCATION : Nat := 250000000

def DEVELOPMENT_ALLOCATION : Nat := 150000000

def MARKETING_ALLOCATION : Nat := 100000000

def TEAM_ALLOCATION : Nat := 100000000

def TEAM_VESTING_DURATION : Nat := 63072000

def TEAM_CLIFF_PERIOD : Nat := 31536000

def MAX_TRANSFER_AMOUNT : Nat := 1000000

def TRANSFER_TAX_RATE : Nat := 2

/-- Error enum of CapyKaspaToken.rs, lines 196-205. -/
inductive Error where
  | Paused
  | ZeroAmount
  | ExceedsMaximum
  | InsufficientBalance
  | BelowMinimum
  | NoRewards
  | StorageError
deriving DecidableEq

/-- StakeInfo of CapyKaspaToken.rs, lines 38-43. -/
structure StakeInfo where
  amount : Nat
  start_time : Nat
  last_claim_time : Nat
deriving DecidableEq

/-- A built Kaspa transaction: the `(address, amount)` pairs added with
`add_input` and `add_output` on the `TransactionBuilder`. -/
structure Transaction where
  inputs : List (Nat × Nat)
  outputs : List (Nat × Nat)
deriving DecidableEq

/-- Debit each input of a transaction from a balance map. -/
def applyInputs (bal : Nat → Nat) : List (Nat × Nat) → (Nat → Nat)
  | [] => bal
  | (addr, amt) :: rest =>
      applyInputs (fun a => if a = addr then bal a - amt else bal a) rest

/-- Credit each output of a transaction to a balance map. -/
def applyOutputs (bal : Nat → Nat) : List (Nat × Nat) → (Nat → Nat)
  | [] => bal
  | (addr, amt) :: rest =>
      applyOutputs (fun a => if a = addr then bal a + amt else bal a) rest

/-- The balance effect of applying one built transaction. -/
def applyTx (bal : Nat → Nat) (tx : Transaction) : Nat → Nat :=
  applyOutputs (applyInputs bal tx.inputs) tx.outputs

/-- Transfer of CapyKaspaToken.rs, lines 85-114.  The source builds `tax_tx`
(tax to the treasury) but returns only `transfer_tx`; the embedding mirrors
that: `tax_tx` is bound and dropped, and the single returned transaction is
the net transfer. -/
def transfer (paused : Bool) (treasury_wallet src dst : Nat) (amount : Nat) :
    Except Error Transaction :=
  if paused then .error .Paused
  else if amount = 0 then .error .ZeroAmount
  else if amount > MAX_TRANSFER_AMOUNT then .error .ExceedsMaximum
  else
    let tax_amount := amount * TRANSFER_TAX_RATE / 100
    let transfer_amount := amount - tax_amount
    let tax_tx : Transaction := ⟨[(src, tax_amount)], [(treasury_wallet, tax_amount)]⟩
    let transfer_tx : Transaction := ⟨[(src, transfer_amount)], [(dst, transfer_amount)]⟩
    .ok transfer_tx

/-- Modelled from the spec: the storage helpers `get_stake_info` and
`store_stake_info` of CapyKaspaToken.rs (lines 180-193) are `unimplemented!()`;
section 6 of the spec supplies `read_stake_record` / `write_stake_record`
adapter capabilities, modelled as a map from staker address to an optional
per-staker record. -/
def Store : Type := Nat → Option StakeInfo

/-- The reward computation inlined in `claim_rewards`, CapyKaspaToken.rs
lines 157-159: `(stake_info.amount * reward_rate * time_staked) / (1000 * 86400)`
with `reward_rate = 10`. -/
def accrued_rewards (stake_info : StakeInfo) (now : Nat) : Nat :=
  let time_staked := now - stake_info.last_claim_time
  let reward_rate := 10
  stake_info.amount * reward_rate * time_staked / (1000 * 86400)

/-- Claim_rewards of CapyKaspaToken.rs, lines 154-177, over the spec-modelled
store; `get_current_timestamp()` becomes the explicit `now` argument.  On a
missing record the spec-modelled read yields `StorageError`. -/
def claim_rewards (treasury_wallet : Nat) (store : Store) (staker now : Nat) :
    Except Error (Store × Transaction) :=
  match store staker with
  | none => .error .StorageError
  | some stake_info =>
    let rewards := accrued_rewards stake_info now
    if rewards = 0 then .error .NoRewards
    else
      let updated_stake_info : StakeInfo := { stake_info with last_claim_time := now }
      let newStore : Store := fun a => if a = staker then some updated_stake_info else store a
      .ok (newStore, ⟨[(treasury_wallet, rewards)], [(staker, rewards)]⟩)

/-- Unstake of CapyKaspaToken.rs, lines 139-152: reads the record, then calls
`claim_rewards` with the `?` operator (so its error, including `NoRewards`,
propagates), then returns a transaction moving the staked amount from the
stake address back to the staker.  The reward transaction returned by
`claim_rewards` is dropped by the source, as is the record itself (it is
never deleted).  The `get_stake_address` helper is `unimplemented!()` in the
source and is modelled as the explicit `stake_address` argument. -/
def unstake (treasury_wallet stake_address : Nat) (store : Store) (staker now : Nat) :
    Except Error (Store × Transaction) :=
  match store staker with
  | none => .error .StorageError
  | some stake_info =>
    match claim_rewards treasury_wallet store staker now with
    | .error e => .error e
    | .ok (store2, _reward_tx) =>
      .ok (store2, ⟨[(stake_address, stake_info.amount)], [(staker, stake_info.amount)]⟩)

/-- Outcome of running a Kaspa entry point as written in the source: either a
panic (an `unimplemented!()` helper was reached), a typed error, or success. -/
inductive KOutcome (α : Type) where
  | panics : KOutcome α
  | err : Error → KOutcome α
  | ok : α → KOutcome α
deriving DecidableEq

/-- Get_stake_address as written (CapyKaspaToken.rs lines 180-183): the body is
`unimplemented!()`, i.e. it panics. -/
def get_stake_address_impl : KOutcome Nat := .panics

/-- Store_stake_info as written (CapyKaspaToken.rs lines 185-188): panics. -/
def store_stake_info_impl (_staker : Nat) (_info : StakeInfo) : KOutcome Unit := .panics

/-- Get_stake_info as written (CapyKaspaToken.rs lines 190-193): panics. -/
def get_stake_info_impl (_staker : Nat) : KOutcome StakeInfo := .panics

/-- Stake as written in CapyKaspaToken.rs, lines 116-137: checks the 1000
minimum first, then calls the panicking `store_stake_info` and
`get_stake_address` helpers. -/
def stake_impl (staker amount now : Nat) : KOutcome Transaction :=
  if amount < 1000 then .err .BelowMinimum
  else
    let stake_info : StakeInfo := ⟨amount, now, now⟩
    match store_stake_info_impl staker stake_info with
    | .panics => .panics
    | .err e => .err e
    | .ok _ =>
      match get_stake_address_impl with
      | .panics => .panics
      | .err e => .err e
      | .ok addr => .ok ⟨[(staker, amount)], [(addr, amount)]⟩

/-- Claim_rewards as written in CapyKaspaToken.rs, lines 154-177: its first
step is the panicking `get_stake_info`. -/
def claim_rewards_impl (treasury_wallet staker now : Nat) : KOutcome Transaction :=
  match get_stake_info_impl staker with
  | .panics => .panics
  | .err e => .err e
  | .ok stake_info =>
    let rewards := accrued_rewards stake_info now
    if rewards = 0 then .err .NoRewards
    else
      match store_stake_info_impl staker { stake_info with last_claim_time := now } with
      | .panics => .panics
      | .err e => .err e
      | .ok _ => .ok ⟨[(treasury_wallet, rewards)], [(staker, rewards)]⟩

/-- Unstake as written in CapyKaspaToken.rs, lines 139-152: its first step is
the panicking `get_stake_info`. -/
def unstake_impl (treasury_wallet staker now : Nat) : KOutcome Transaction :=
  match get_stake_info_impl staker with
  | .panics => .panics
  | .err e => .err e
  | .ok stake_info =>
    match claim_rewards_impl treasury_wallet staker now with
    | .panics => .panics
    | .err e => .err e
    | .ok _ =>
      match get_stake_address_impl with
      | .panics => .panics
      | .err e => .err e
      | .ok addr => .ok ⟨[(addr, stake_info.amount)], [(staker, stake_info.amount)]⟩

end CapyKaspa

namespace CapyCosmos

/-- Token-distribution constants of CapyCosmosToken.rs, lines 13-29. -/
def INITIAL_SUPPLY : Nat := 1000000000

def LIQUIDITY_ALLOCATION : Nat := 400000000

def STAKING_ALLOCATION : Nat := 250000000

def DEVELOPMENT_ALLOCATION : Nat := 150000000

def MARKETING_ALLOCATION : Nat := 100000000

def TEAM_ALLOCATION : Nat := 100000000

def TEAM_VESTING_DURATION : Nat := 63072000

def TEAM_CLIFF_PERIOD : Nat := 31536000

def MAX_TRANSFER_AMOUNT : Nat := 1000000

def TRANSFER_TAX_RATE : Nat := 2

/-- StakeInfo of CapyCosmosToken.rs, lines 74-79. -/
structure StakeInfo where
  amount : Nat
  start_time : Nat
  last_claim_time : Nat
deriving DecidableEq

/-- VestingInfo of CapyCosmosToken.rs, lines 81-88. -/
structure VestingInfo where
  total_amount : Nat
  claimed_amount : Nat
  start_time : Nat
  duration : Nat
  cliff_period : Option Nat
deriving DecidableEq

/-- The STAKE_INFO storage map (CapyCosmosToken.rs line 91): staker address to
optional stake record. -/
def Store : Type := Nat → Option StakeInfo

/-- Contract state written by `instantiate`: the CW20 `TOKEN_INFO.total_supply`
field, the `BALANCES` map and the `VESTING_INFO` map. -/
structure CosmosState where
  total_supply : Nat
  balances : Nat → Nat
  vesting : Nat → Option VestingInfo

/-- Instantiate of CapyCosmosToken.rs, lines 94-127: saves `TOKEN_INFO` with
`total_supply = INITIAL_SUPPLY`, saves a single balance entry
`treasury_wallet -> LIQUIDITY_ALLOCATION`, and saves a single vesting entry
for `team_wallet` (total `TEAM_ALLOCATION`, team duration and cliff).  No
other balance or vesting entry is written. -/
def instantiate (treasury_wallet team_wallet now : Nat) : CosmosState :=
  { total_supply := INITIAL_SUPPLY
  , balances := fun a => if a = treasury_wallet then LIQUIDITY_ALLOCATION else 0
  , vesting := fun a =>
      if a = team_wallet then
        some ⟨TEAM_ALLOCATION, 0, now, TEAM_VESTING_DURATION, some TEAM_CLIFF_PERIOD⟩
      else none }

/-- The AxelarExecuteMsg::BridgeToken submessage built by
`execute_bridge_transfer` (CapyCosmosToken.rs lines 162-166). -/
structure AxelarBridgeToken where
  destination_chain : Nat
  destination_address : Nat
  amount : Nat
deriving DecidableEq

/-- Execute_bridge_transfer of CapyCosmosToken.rs, lines 153-173: it only
builds the Axelar submessage and returns `Ok`; it never reads or writes
`BALANCES`, performs no burn, and has no `Paused` / `ZeroAmount` check, so
the balance map is returned unchanged. -/
def execute_bridge_transfer (balances : Nat → Nat)
    (destination_chain destination_address amount : Nat) :
    (Nat → Nat) × AxelarBridgeToken :=
  (balances, ⟨destination_chain, destination_address, amount⟩)

/-- Execute_stake of CapyCosmosToken.rs, lines 175-193: builds a fresh
`StakeInfo { amount, start_time: now, last_claim_time: now }` and saves it
under the sender, overwriting whatever record was stored before.  It has no
error path; the `Response` attributes are not modelled. -/
def execute_stake (store : Store) (sender amount now : Nat) : Store :=
  fun a => if a = sender then some ⟨amount, now, now⟩ else store a

/-- Modelled from the spec: no vesting-claim logic exists in the source (the
three files only declare `VestingInfo` and instantiate the team grant, and the
`ClaimTeamTokens` message falls through to the CW20 base handler); section 4.2
of the spec defines `claimable(grant, now)`: zero before the cliff, otherwise
`floor(total_amount * min(now - start_time, duration) / duration) -
claimed_amount`, clamped at zero (here by truncated Nat subtraction). -/
def claimable (grant : VestingInfo) (now : Nat) : Nat :=
  let cliff := grant.cliff_period.getD 0
  if now < grant.start_time + cliff then 0
  else
    let elapsed := min (now - grant.start_time) grant.duration
    let vested := grant.total_amount * elapsed / grant.duration
    vested - grant.claimed_amount

end CapyCosmos

namespace CapySolana

/-- Token-distribution constants of CapySolanaToken.rs, lines 11-27. -/
def INITIAL_SUPPLY : Nat := 1000000000

def LIQUIDITY_ALLOCATION : Nat := 400000000

def STAKING_ALLOCATION : Nat := 250000000

def DEVELOPMENT_ALLOCATION : Nat := 150000000

def MARKETING_ALLOCATION : Nat := 100000000

def TEAM_ALLOCATION : Nat := 100000000

/-- TokenError of CapySolanaToken.rs, lines 247-257. -/
inductive TokenError where
  | ZeroAmount
  | Paused
  | ExceedsMaximum
  | InsufficientBalance
deriving DecidableEq

/-- BridgeMessage of CapySolanaToken.rs, lines 267-273; the `Pubkey` token
address and the 32-byte recipient are modelled as `Nat` identifiers. -/
structure BridgeMessage where
  amount : Nat
  token_address : Nat
  recipient_chain : Nat
  recipient : Nat
deriving DecidableEq

/-- Bridge_out of CapySolanaToken.rs, lines 166-217: requires not paused and
a non-zero amount, burns `amount` from the `from` token account via
`token::burn` (SPL semantics: fails on insufficient balance, otherwise debits
the account), then posts the constructed `BridgeMessage`.  Returns the
updated balance map and the posted message. -/
def bridge_out (paused : Bool) (bal : Nat → Nat)
    (from_account amount recipient_chain recipient mint_key : Nat) :
    Except TokenError ((Nat → Nat) × BridgeMessage) :=
  if paused then .error .Paused
  else if amount = 0 then .error .ZeroAmount
  else if bal from_account < amount then .error .InsufficientBalance
  else
    .ok (fun a => if a = from_account then bal a - amount else bal a,
         ⟨amount, mint_key, recipient_chain, recipient⟩)

/-- Bridge_in of CapySolanaToken.rs, lines 219-243: requires not paused, then
mints `message.amount` to the recipient token account supplied in the
context.  The message is the already-parsed VAA payload; the source performs
no replay check of any kind (there is no ReplayGuard state, and
`BridgeMessage` carries no sequence number or source chain id), so every
verified call mints. -/
def bridge_in (paused : Bool) (bal : Nat → Nat) (message : BridgeMessage)
    (recipient_account : Nat) : Except TokenError (Nat → Nat) :=
  if paused then .error .Paused
  else .ok (fun a => if a = recipient_account then bal a + message.amount else bal a)

/-- Initialize of CapySolanaToken.rs, lines 81-113 (named `init_token` here):
sets `total_supply = INITIAL_SUPPLY` on the state account and performs a
single `mint_to` of `LIQUIDITY_ALLOCATION` to the treasury wallet; no other
allocation is minted.  Returns the recorded total supply and the balance map
after the mint. -/
def init_token (bal : Nat → Nat) (treasury_wallet : Nat) : Nat × (Nat → Nat) :=
  (INITIAL_SUPPLY,
   fun a => if a = treasury_wallet then bal a + LIQUIDITY_ALLOCATION else bal a)

end CapySolana

/-- C1.  Claimed: `bridge_in` succeeds at most once per
`(source_chain_id, sequence_number)` pair, the second identical call failing
with `ReplayDetected` and leaving balances unchanged.  The code has no replay
state at all: delivering the same verified message (amount 500) twice
succeeds both times, the recipient account holding 500 after the first call
and 1000 after the second. -/
theorem bridge_in_double_mint :
    (CapySolana.bridge_in false (fun _ => 0) ⟨500, 5, 2, 7⟩ 7).toOption.map (fun b => b 7)
      = some 500 ∧
    ((CapySolana.bridge_in false (fun _ => 0) ⟨500, 5, 2, 7⟩ 7).bind
        (fun b1 => CapySolana.bridge_in false b1 ⟨500, 5, 2, 7⟩ 7)).toOption.map (fun b => b 7)
      = some 1000 :=
  ⟨rfl, rfl⟩

/-- C2.  Claimed: every bridge-out with non-zero amount while not paused burns
exactly `amount` from the sender before emitting the bridge message.  The
Solana `bridge_out` does so (first conjunct: sender balance 500 drops to 0 and
the message carries 500), but the Cosmos `execute_bridge_transfer` emits the
Axelar message with the balance map returned untouched — the sender still
holds 500 after bridging 500 — and has no `Paused` or `ZeroAmount` check. -/
theorem bridge_out_cosmos_no_burn :
    (CapySolana.bridge_out false (fun a => if a = 1 then 500 else 0) 1 500 2 7 5).toOption.map
        (fun p => (p.1 1, p.2.amount)) = some (0, 500) ∧
    (CapyCosmos.execute_bridge_transfer (fun a => if a = 1 then 500 else 0) 3 4 500).1
      = (fun a => if a = 1 then 500 else 0) ∧
    (CapyCosmos.execute_bridge_transfer (fun a => if a = 1 then 500 else 0) 3 4 500).1 1 = 500 ∧
    (CapyCosmos.execute_bridge_transfer (fun a => if a = 1 then 500 else 0) 3 4 500).2.amount
      = 500 :=
  ⟨rfl, rfl, rfl, rfl⟩

/-- C3.  Claimed: a successful transfer of 1000 at the 2% tax rate debits the
sender by 1000, credits the tax recipient (treasury, address 0) by 20 and the
recipient (address 2) by 980.  The code computes tax 20 and net 980 but
returns only the net transaction, discarding the built tax transaction:
applying the returned transaction to a state where the sender (address 1)
holds 5000 leaves the treasury at 0 (not 20), the sender at 4020 (not 4000),
and the recipient at 980. -/
theorem transfer_tax_discarded :
    CapyKaspa.transfer false 0 1 2 1000 = .ok ⟨[(1, 980)], [(2, 980)]⟩ ∧
    (CapyKaspa.transfer false 0 1 2 1000).toOption.map
        (fun tx => (CapyKaspa.applyTx (fun a => if a = 1 then 5000 else 0) tx 0,
                    CapyKaspa.applyTx (fun a => if a = 1 then 5000 else 0) tx 1,
                    CapyKaspa.applyTx (fun a => if a = 1 then 5000 else 0) tx 2))
      = some (0, 4020, 980) ∧
    ((0, 4020, 980) : Nat × Nat × Nat) ≠ (20, 4000, 980) :=
  ⟨rfl, rfl, by decide⟩

/-- C4 counterexample.  Claimed: transfer fails with `InsufficientBalance`
when the sender's balance is below the amount.  The code never reads any
balance: with every balance zero (so the sender's balance 0 is below the
amount 5), `transfer` still succeeds and returns the net transaction. -/
theorem transfer_no_balance_check_cex :
    (fun _ : Nat => (0 : Nat)) 1 < 5 ∧
    CapyKaspa.transfer false 0 1 2 5 = .ok ⟨[(1, 5)], [(2, 5)]⟩ :=
  ⟨by decide, rfl⟩

/-- C4 amended.  Transfer fails with `Paused` exactly when paused, with
`ZeroAmount` exactly when not paused and the amount is zero, and with
`ExceedsMaximum` exactly when not paused, the amount is non-zero and exceeds
the 1,000,000 cap; it never fails with `InsufficientBalance` (no balance is
consulted), and on every failure no transaction is returned, so no balance
changes. -/
theorem transfer_error_cases :
    ∀ (paused : Bool) (treasury_wallet src dst amount : Nat),
    (CapyKaspa.transfer paused treasury_wallet src dst amount = .error .Paused
        ↔ paused = true) ∧
    (CapyKaspa.transfer paused treasury_wallet src dst amount = .error .ZeroAmount
        ↔ paused = false ∧ amount = 0) ∧
    (CapyKaspa.transfer paused treasury_wallet src dst amount = .error .ExceedsMaximum
        ↔ paused = false ∧ amount ≠ 0 ∧ CapyKaspa.MAX_TRANSFER_AMOUNT < amount) ∧
    CapyKaspa.transfer paused treasury_wallet src dst amount
        ≠ .error .InsufficientBalance := by
  intro paused treasury_wallet src dst amount
  cases paused
  · simp only [CapyKaspa.transfer, Bool.false_eq_true, if_false]
    split_ifs with h1 h2 <;> simp_all
  · simp [CapyKaspa.transfer]

/-- C5.  Claimed: the five allocations sum to the fixed total supply of
1,000,000,000 and each is assigned at instantiation, so assigned balances plus
custody equal the total supply.  The constants do sum to the total supply in
all three encodings, but Cosmos `instantiate` assigns only the liquidity
allocation (treasury, address 0) and the team vesting grant (address 1) —
every other address holds 0 — for an assigned total of 500,000,000, and
Solana `init_token` records total supply 1,000,000,000 while minting only the
400,000,000 liquidity allocation. -/
theorem instantiate_partial_allocation :
    CapyKaspa.LIQUIDITY_ALLOCATION + CapyKaspa.STAKING_ALLOCATION +
        CapyKaspa.DEVELOPMENT_ALLOCATION + CapyKaspa.MARKETING_ALLOCATION +
        CapyKaspa.TEAM_ALLOCATION = CapyKaspa.INITIAL_SUPPLY ∧
    CapyCosmos.LIQUIDITY_ALLOCATION + CapyCosmos.STAKING_ALLOCATION +
        CapyCosmos.DEVELOPMENT_ALLOCATION + CapyCosmos.MARKETING_ALLOCATION +
        CapyCosmos.TEAM_ALLOCATION = CapyCosmos.INITIAL_SUPPLY ∧
    (CapyCosmos.instantiate 0 1 100).total_supply = 1000000000 ∧
    (CapyCosmos.instantiate 0 1 100).balances 0 = 400000000 ∧
    (CapyCosmos.instantiate 0 1 100).balances 2 = 0 ∧
    (CapyCosmos.instantiate 0 1 100).balances 3 = 0 ∧
    (CapyCosmos.instantiate 0 1 100).balances 4 = 0 ∧
    ((CapyCosmos.instantiate 0 1 100).vesting 1).map (fun v => v.total_amount)
      = some 100000000 ∧
    (400000000 + 100000000 : Nat) ≠ 1000000000 ∧
    (CapySolana.init_token (fun _ => 0) 0).1 = 1000000000 ∧
    (CapySolana.init_token (fun _ => 0) 0).2 0 = 400000000 :=
  ⟨rfl, rfl, rfl, rfl, rfl, rfl, rfl, rfl, by decide, rfl, rfl⟩

/-- Casting a truncated Nat subtraction to Int gives the zero-clamped
difference. -/
theorem natSub_cast_clamp (a b : Nat) : ((a - b : Nat) : Int) = max 0 ((a : Int) - b) := by
  omega

/-- C6.  For every grant and time, `claimable` returns 0 before
`start_time + cliff` (cliff defaulting to 0 when absent) and otherwise
`max(0, floor(total_amount * min(now - start_time, duration) / duration) -
claimed_amount)`; for the team grant (total 100,000,000, duration 63,072,000,
cliff 31,536,000, start 0) it returns 0 at `cliff - 1` and exactly
50,000,000 at `cliff`. -/
theorem claimable_spec :
    (∀ (g : CapyCosmos.VestingInfo) (now : Nat),
      (now < g.start_time + g.cliff_period.getD 0 → CapyCosmos.claimable g now = 0) ∧
      (g.start_time + g.cliff_period.getD 0 ≤ now →
        (CapyCosmos.claimable g now : Int) =
          max 0 (((g.total_amount * min (now - g.start_time) g.duration / g.duration : Nat) : Int)
                  - (g.claimed_amount : Int)))) ∧
    CapyCosmos.claimable ⟨100000000, 0, 0, 63072000, some 31536000⟩ 31535999 = 0 ∧
    CapyCosmos.claimable ⟨100000000, 0, 0, 63072000, some 31536000⟩ 31536000 = 50000000 := by
  refine ⟨fun g now => ⟨fun h => ?_, fun h => ?_⟩, rfl, rfl⟩
  · simp only [CapyCosmos.claimable]
    rw [if_pos h]
  · simp only [CapyCosmos.claimable]
    rw [if_neg (by omega)]
    exact natSub_cast_clamp _ _

/-- C6 witness: the general theorem applied to the team grant at a time
before the cliff. -/
theorem claimable_spec_witness :
    CapyCosmos.claimable ⟨100000000, 0, 0, 63072000, some 31536000⟩ 1000 = 0 :=
  (claimable_spec.1 ⟨100000000, 0, 0, 63072000, some 31536000⟩ 1000).1 (by decide)

/-- C7.  The reward computation of `claim_rewards` equals
`floor(amount * daily_rate_bp * elapsed / (10000 * 86400))` with the
1%-per-day policy expressed as `daily_rate_bp = 100` basis points (the
source's `amount * 10 * elapsed / (1000 * 86400)` is the same floor), and it
is 0 when `elapsed = now - last_claim_time` is 0. -/
theorem accrued_rewards_rate :
    ∀ (stake_info : CapyKaspa.StakeInfo) (now : Nat),
    CapyKaspa.accrued_rewards stake_info now =
      stake_info.amount * 100 * (now - stake_info.last_claim_time) / (10000 * 86400) ∧
    (now - stake_info.last_claim_time = 0 → CapyKaspa.accrued_rewards stake_info now = 0) := by
  intro stake_info now
  constructor
  · simp only [CapyKaspa.accrued_rewards]
    have h1 : stake_info.amount * 100 * (now - stake_info.last_claim_time)
        = 10 * (stake_info.amount * 10 * (now - stake_info.last_claim_time)) := by ring
    have h2 : (10000 * 86400 : Nat) = 10 * (1000 * 86400) := by norm_num
    rw [h1, h2, Nat.mul_div_mul_left _ _ (by norm_num)]
  · intro h
    simp [CapyKaspa.accrued_rewards, h]

/-- C7 witness: one day of staking 1000 units accrues
`1000 * 100 * 86400 / (10000 * 86400) = 10` units, and zero elapsed time
accrues zero. -/
theorem accrued_rewards_rate_witness :
    CapyKaspa.accrued_rewards ⟨1000, 0, 0⟩ 86400
        = 1000 * 100 * 86400 / (10000 * 86400) ∧
    CapyKaspa.accrued_rewards ⟨1000, 0, 5⟩ 5 = 0 :=
  ⟨(accrued_rewards_rate ⟨1000, 0, 0⟩ 86400).1,
   (accrued_rewards_rate ⟨1000, 0, 5⟩ 5).2 rfl⟩

/-- C8 counterexample.  Claimed: `unstake` never fails with `NoRewards` and
still succeeds when accrued rewards are zero.  With a stored record of 5000
units and `now` equal to `last_claim_time` (zero elapsed time, so zero
rewards), `unstake` propagates `claim_rewards`' error and fails with
`NoRewards`. -/
theorem unstake_norewards_cex :
    CapyKaspa.unstake 0 9 (fun a => if a = 1 then some ⟨5000, 0, 0⟩ else none) 1 0
      = .error .NoRewards :=
  rfl

/-- C8 amended.  For every stored record, `unstake` first invokes
`claim_rewards` and propagates its error, so it fails with `NoRewards`
exactly when the accrued rewards are zero; when they are non-zero it succeeds,
returning a transaction that moves the full recorded amount from the stake
address back to the staker, with the record updated (`last_claim_time := now`)
but not deleted. -/
theorem unstake_behavior :
    ∀ (treasury_wallet stake_address staker now : Nat) (store : CapyKaspa.Store)
      (stake_info : CapyKaspa.StakeInfo),
    store staker = some stake_info →
    (CapyKaspa.accrued_rewards stake_info now = 0 →
      CapyKaspa.unstake treasury_wallet stake_address store staker now
        = .error .NoRewards) ∧
    (CapyKaspa.accrued_rewards stake_info now ≠ 0 →
      CapyKaspa.unstake treasury_wallet stake_address store staker now
        = .ok (fun a => if a = staker then
                          some { stake_info with last_claim_time := now }
                        else store a,
               ⟨[(stake_address, stake_info.amount)], [(staker, stake_info.amount)]⟩)) := by
  intro treasury_wallet stake_address staker now store stake_info hstore
  constructor
  · intro hzero
    simp [CapyKaspa.unstake, CapyKaspa.claim_rewards, hstore, hzero]
  · intro hnz
    simp [CapyKaspa.unstake, CapyKaspa.claim_rewards, hstore, hnz]

/-- C8 witness: with a record of 5000 units and a full day elapsed the
rewards are 50, so `unstake` does not fail with `NoRewards`. -/
theorem unstake_behavior_witness :
    CapyKaspa.unstake 0 9 (fun a => if a = 1 then some ⟨5000, 0, 0⟩ else none) 1 86400
      ≠ .error .NoRewards := by
  have h := (unstake_behavior 0 9 1 86400
      (fun a => if a = 1 then some ⟨5000, 0, 0⟩ else none) ⟨5000, 0, 0⟩ rfl).2 (by decide)
  rw [h]
  simp

/-- C9 counterexample.  Claimed: staking again with an existing record
increases the recorded amount and leaves both timestamps unchanged.  With an
existing record of 2000 units created at time 10, staking a further 1500 at
time 50 stores the record (1500, 50, 50) — the amount is replaced, not
incremented to 3500, and both timestamps are reset. -/
theorem stake_overwrite_cex :
    CapyCosmos.execute_stake (fun a => if a = 1 then some ⟨2000, 10, 10⟩ else none) 1 1500 50 1
      = some ⟨1500, 50, 50⟩ ∧
    (some (⟨1500, 50, 50⟩ : CapyCosmos.StakeInfo) ≠ some ⟨3500, 10, 10⟩) :=
  ⟨rfl, by decide⟩

/-- C9 amended.  Every call to stake stores a fresh record whose amount is
exactly the newly staked amount and whose `start_time` and `last_claim_time`
both equal `now`, overwriting any existing record; records of other stakers
are unchanged. -/
theorem stake_overwrite :
    ∀ (store : CapyCosmos.Store) (sender amount now : Nat),
    CapyCosmos.execute_stake store sender amount now sender = some ⟨amount, now, now⟩ ∧
    ∀ a, a ≠ sender → CapyCosmos.execute_stake store sender amount now a = store a := by
  intro store sender amount now
  constructor
  · simp [CapyCosmos.execute_stake]
  · intro a ha
    simp [CapyCosmos.execute_stake, ha]

/-- C9 witness: staking 1500 at time 50 into an empty store records
(1500, 50, 50) for the sender and nothing for anyone else. -/
theorem stake_overwrite_witness :
    CapyCosmos.execute_stake (fun _ => none) 1 1500 50 1 = some ⟨1500, 50, 50⟩ ∧
    CapyCosmos.execute_stake (fun _ => none) 1 1500 50 2 = none :=
  ⟨(stake_overwrite (fun _ => none) 1 1500 50).1,
   (stake_overwrite (fun _ => none) 1 1500 50).2 2 (by decide)⟩

/-- C10 counterexample.  Claimed: every call to stake, unstake or
claim_rewards reaches an `unimplemented!()` helper and panics rather than
returning a typed `Result`.  A stake of 500 units fails the minimum check
before any helper is reached and returns the typed error `BelowMinimum`, not
a panic. -/
theorem stake_below_minimum_cex :
    CapyKaspa.stake_impl 1 500 0 = .err .BelowMinimum ∧
    (CapyKaspa.KOutcome.err CapyKaspa.Error.BelowMinimum :
        CapyKaspa.KOutcome CapyKaspa.Transaction) ≠ .panics :=
  ⟨rfl, by decide⟩

/-- C10 amended.  Every call to unstake or claim_rewards, and every call to
stake with at least the 1000-unit minimum, reaches an `unimplemented!()`
storage or address helper and panics; only stake below the minimum returns a
typed error first. -/
theorem kaspa_ops_panic :
    ∀ (treasury_wallet staker amount now : Nat),
    (1000 ≤ amount → CapyKaspa.stake_impl staker amount now = .panics) ∧
    CapyKaspa.unstake_impl treasury_wallet staker now = .panics ∧
    CapyKaspa.claim_rewards_impl treasury_wallet staker now = .panics := by
  intro treasury_wallet staker amount now
  refine ⟨fun h => ?_, rfl, rfl⟩
  simp only [CapyKaspa.stake_impl]
  rw [if_neg (by omega)]
  rfl

/-- C10 witness: staking exactly the 1000-unit minimum panics, as do unstake
and claim_rewards. -/
theorem kaspa_ops_panic_witness :
    CapyKaspa.stake_impl 1 1000 0 = .panics ∧
    CapyKaspa.unstake_impl 0 1 0 = .panics :=
  ⟨(kaspa_ops_panic 0 1 1000 0).1 (by decide), (kaspa_ops_panic 0 1 1000 0).2.1⟩
